import Mathlib

/-!
# Verification of the BWM / PROMETHEE II supplier-evaluation core

This development is a shallow embedding, in Lean 4, of the analytical core of
the `Bid_Demo1` supplier-evaluation system:

* the PROMETHEE II ranking engine (`calculate_promethee_ii` and its inner
  `calculate_preference_value` in `app/backend/unified_api.py`),
* the score-assembly / missing-data policy of the
  `/api/promethee/calculate` endpoint (`calculate_promethee_ranking`),
* the Best-Worst Method weight solver (`app/backend/best_worst_method.py`),
  modelled by its validation state machine and by the feasible set of the
  linear program it hands to `scipy.optimize.linprog`,
* the threshold-recommendation heuristics
  (`SupplierDatabase._calculate_profile_threshold` /
  `_calculate_survey_threshold` in `app/backend/database.py`).

Python floats are modelled by `ℝ` where transcendental functions occur
(the gaussian preference shape uses `exp`) and by `ℚ` in the purely
rational BWM / threshold layers.  Python dicts are modelled by association
lists (preserving insertion order) or by lookup functions, as noted at each
definition.  Exceptions are modelled by `Except`.
-/

/-! ## Preference functions (`calculate_preference_value`) -/

/-- Shallow embedding of the inner function `calculate_preference_value`
of `calculate_promethee_ii` (`unified_api.py`).  The shape is a string, as
in the source; an unrecognized string falls through to the final `else`
branch, which is the linear shape.  The gaussian branch uses
`sigma = pref_threshold / 2`. -/
noncomputable def calculate_preference_value (diff : ℝ) (function_type : String)
    (indiff_threshold pref_threshold : ℝ) : ℝ :=
  if function_type = "usual" then
    if 0 < diff then 1 else 0
  else if function_type = "u_shape" then
    if indiff_threshold < diff then 1 else 0
  else if function_type = "v_shape" then
    if diff ≤ 0 then 0
    else if pref_threshold ≤ diff then 1
    else diff / pref_threshold
  else if function_type = "level" then
    if diff ≤ indiff_threshold then 0
    else if pref_threshold ≤ diff then 1
    else 0.5
  else if function_type = "linear" then
    if diff ≤ indiff_threshold then 0
    else if pref_threshold ≤ diff then 1
    else (diff - indiff_threshold) / (pref_threshold - indiff_threshold)
  else if function_type = "gaussian" then
    if diff ≤ 0 then 0
    else 1 - Real.exp (-(diff ^ 2) / (2 * (pref_threshold / 2) ^ 2))
  else
    if diff ≤ indiff_threshold then 0
    else if pref_threshold ≤ diff then 1
    else (diff - indiff_threshold) / (pref_threshold - indiff_threshold)

/-- The `linear` branch of `calculate_preference_value`, unfolded. -/
lemma calculate_preference_value_linear (diff q p : ℝ) :
    calculate_preference_value diff "linear" q p =
      if diff ≤ q then 0 else if p ≤ diff then 1 else (diff - q) / (p - q) := by
  simp [calculate_preference_value]

/-- C7: the linear preference shape is 0 up to the indifference threshold,
1 from the preference threshold on, and the linear ramp
`(diff − q)/(p − q)` strictly in between; with `q = 0.5`, `p = 2.0` the
differences `0.5`, `2.0`, `1.25` map to exactly `0`, `1`, `0.5`. -/
theorem linear_shape_boundary_behavior :
    (∀ q p diff : ℝ, q < p →
      (diff ≤ q → calculate_preference_value diff "linear" q p = 0) ∧
      (p ≤ diff → calculate_preference_value diff "linear" q p = 1) ∧
      (q < diff → diff < p →
        calculate_preference_value diff "linear" q p = (diff - q) / (p - q))) ∧
    calculate_preference_value 0.5 "linear" 0.5 2 = 0 ∧
    calculate_preference_value 2 "linear" 0.5 2 = 1 ∧
    calculate_preference_value 1.25 "linear" 0.5 2 = 0.5 := by
  refine ⟨fun q p diff hqp => ⟨fun h => ?_, fun h => ?_, fun h1 h2 => ?_⟩, ?_, ?_, ?_⟩
  · rw [calculate_preference_value_linear, if_pos h]
  · rw [calculate_preference_value_linear, if_neg (by linarith), if_pos h]
  · rw [calculate_preference_value_linear, if_neg (by linarith), if_neg (by linarith)]
  · rw [calculate_preference_value_linear]; norm_num
  · rw [calculate_preference_value_linear]; norm_num
  · rw [calculate_preference_value_linear]; norm_num

/-- Witness for `linear_shape_boundary_behavior`: the universal part applied
at the concrete input `q = 0.5`, `p = 2`, `diff = 1.25`. -/
theorem linear_shape_boundary_behavior_witness :
    calculate_preference_value 1.25 "linear" 0.5 2 = (1.25 - 0.5) / (2 - 0.5) :=
  (linear_shape_boundary_behavior.1 0.5 2 1.25 (by norm_num)).2.2
    (by norm_num) (by norm_num)

/-- Every preference shape of `calculate_preference_value` is monotone
nondecreasing in the score difference, for arbitrary thresholds. -/
lemma calculate_preference_value_mono (ft : String) (q p : ℝ) {d₁ d₂ : ℝ}
    (h : d₁ ≤ d₂) :
    calculate_preference_value d₁ ft q p ≤ calculate_preference_value d₂ ft q p := by
  have hramp : ∀ d₁ d₂ : ℝ, d₁ ≤ d₂ →
      (if d₁ ≤ q then (0:ℝ) else if p ≤ d₁ then 1 else (d₁ - q) / (p - q)) ≤
      (if d₂ ≤ q then (0:ℝ) else if p ≤ d₂ then 1 else (d₂ - q) / (p - q)) := by
    intro d₁ d₂ h
    split_ifs <;> try linarith
    · exact div_nonneg (by linarith) (by linarith)
    · rw [div_le_one (by linarith)]; linarith
    · gcongr <;> linarith
  unfold calculate_preference_value
  by_cases h1 : ft = "usual"
  · simp only [if_pos h1]; split_ifs <;> linarith
  simp only [if_neg h1]
  by_cases h2 : ft = "u_shape"
  · simp only [if_pos h2]; split_ifs <;> linarith
  simp only [if_neg h2]
  by_cases h3 : ft = "v_shape"
  · simp only [if_pos h3]
    split_ifs <;> try linarith
    · exact div_nonneg (by linarith) (by linarith)
    · rw [div_le_one (by linarith)]; linarith
    · gcongr <;> linarith
  simp only [if_neg h3]
  by_cases h4 : ft = "level"
  · simp only [if_pos h4]; split_ifs <;> linarith
  simp only [if_neg h4]
  by_cases h5 : ft = "linear"
  · simp only [if_pos h5]; exact hramp d₁ d₂ h
  simp only [if_neg h5]
  by_cases h6 : ft = "gaussian"
  · simp only [if_pos h6]
    have hs : (0:ℝ) ≤ 2 * (p / 2) ^ 2 := by positivity
    split_ifs with hd1 hd2 hd2
    · linarith
    · have harg : -(d₂ ^ 2) / (2 * (p / 2) ^ 2) ≤ 0 := by
        have hq : (0:ℝ) ≤ d₂ ^ 2 / (2 * (p / 2) ^ 2) :=
          div_nonneg (sq_nonneg _) hs
        rw [neg_div]; linarith
      have hexp : Real.exp (-(d₂ ^ 2) / (2 * (p / 2) ^ 2)) ≤ 1 := by
        have := Real.exp_le_exp.mpr harg
        rwa [Real.exp_zero] at this
      linarith
    · linarith
    · have hsq : d₁ ^ 2 ≤ d₂ ^ 2 := by nlinarith
      have hdiv : d₁ ^ 2 / (2 * (p / 2) ^ 2) ≤ d₂ ^ 2 / (2 * (p / 2) ^ 2) := by
        rcases eq_or_lt_of_le hs with hs0 | hs0
        · rw [← hs0, div_zero, div_zero]
        · gcongr
      have hneg : -(d₂ ^ 2) / (2 * (p / 2) ^ 2) ≤ -(d₁ ^ 2) / (2 * (p / 2) ^ 2) := by
        rw [neg_div, neg_div]; linarith
      have := Real.exp_le_exp.mpr hneg
      linarith
  simp only [if_neg h6]
  exact hramp d₁ d₂ h

/-! ## PROMETHEE II engine (`calculate_promethee_ii`)

The input mirrors the parameters of `calculate_promethee_ii`
(`unified_api.py`): `supplier_scores` is the dict
`supplier_id → criterion → score` (an association list in dict insertion
order, with per-supplier score dicts as partial lookup functions, since the
source reads them with `.get(criterion, 0)`); `criteria_weights` is the
weights dict (insertion-ordered pairs, iterated by the source as
`for criterion in criteria`); the three configuration maps are lookup
functions, `preference_functions` a partial one since the source reads it
with `.get(criterion, 'linear')`.  Dict keys are unique in Python, so
theorems about positions assume `Nodup` where it matters. -/

structure PrometheeInput where
  supplier_scores : List (ℕ × (String → Option ℝ))
  criteria_weights : List (String × ℝ)
  preference_functions : String → Option String
  preference_thresholds : String → ℝ
  indifference_thresholds : String → ℝ

/-- `suppliers = list(supplier_scores.keys())`. -/
def PrometheeInput.suppliers (inp : PrometheeInput) : List ℕ :=
  inp.supplier_scores.map Prod.fst

/-- `supplier_scores[s].get(c, 0)`: the effective score used by the
engine, with a missing criterion entry read as `0`. -/
noncomputable def score_of (inp : PrometheeInput) (s : ℕ) (c : String) : ℝ :=
  (((inp.supplier_scores.lookup s).getD (fun _ => none)) c).getD 0

/-- The weighted aggregated preference `π(a, b)`: the loop
`for criterion in criteria: aggregated_preference += criteria_weights[criterion] * preference`. -/
noncomputable def aggregated_preference (inp : PrometheeInput) (a b : ℕ) : ℝ :=
  (inp.criteria_weights.map fun cw =>
    cw.2 * calculate_preference_value (score_of inp a cw.1 - score_of inp b cw.1)
      ((inp.preference_functions cw.1).getD "linear")
      (inp.indifference_thresholds cw.1) (inp.preference_thresholds cw.1)).sum

/-- One entry of `preference_matrix`: the source only fills the entry when
`i != j`, leaving the diagonal at its initial `0`. -/
noncomputable def preference_entry (inp : PrometheeInput) (a b : ℕ) : ℝ :=
  if a = b then 0 else aggregated_preference inp a b

/-- `positive_flows = np.mean(preference_matrix, axis=1)`: the row mean,
i.e. the row sum divided by the number `n` of suppliers (the zero diagonal
entry included). -/
noncomputable def positive_flow (inp : PrometheeInput) (a : ℕ) : ℝ :=
  (inp.suppliers.map fun b => preference_entry inp a b).sum / inp.suppliers.length

/-- `negative_flows = np.mean(preference_matrix, axis=0)`: the column mean. -/
noncomputable def negative_flow (inp : PrometheeInput) (a : ℕ) : ℝ :=
  (inp.suppliers.map fun b => preference_entry inp b a).sum / inp.suppliers.length

/-- `net_flows = positive_flows - negative_flows`. -/
noncomputable def net_flow (inp : PrometheeInput) (a : ℕ) : ℝ :=
  positive_flow inp a - negative_flow inp a

/-- Net flow of the supplier at position `i` of the suppliers list. -/
noncomputable def net_flow_at (inp : PrometheeInput) (i : ℕ) : ℝ :=
  net_flow inp (inp.suppliers.getD i 0)

/-- `ranking_indices = np.argsort(-net_flows)`: the positions
`0, …, n−1` sorted so that net flows are descending.  `np.argsort` with its
default kind promises only a sorted permutation — its order on exactly
equal keys is an implementation detail of the library (the default
quicksort is not stable) — so this model fixes one sorted permutation (a
stable insertion sort on the negated keys) and is cited on tie-free inputs
only. -/
noncomputable def promethee_ranking (inp : PrometheeInput) : List ℕ :=
  List.insertionSort (fun i j => net_flow_at inp j ≤ net_flow_at inp i)
    (List.range inp.suppliers.length)

/-- Summing matrix-row entries equals summing `π(a, ·)` over the other
suppliers: the diagonal contributes `0`. -/
lemma row_sum_eq_off_diagonal (inp : PrometheeInput) (a : ℕ) (l : List ℕ) :
    (l.map fun b => preference_entry inp a b).sum =
      ((l.filter fun b => b ≠ a).map fun b => aggregated_preference inp a b).sum := by
  induction l with
  | nil => simp
  | cons x t ih =>
    simp only [ne_eq, decide_not] at ih ⊢
    rw [List.map_cons, List.sum_cons, List.filter_cons, ih]
    by_cases hx : x = a
    · subst hx
      simp [preference_entry]
    · simp [preference_entry, hx, Ne.symm hx]

/-- Column version of `row_sum_eq_off_diagonal`. -/
lemma col_sum_eq_off_diagonal (inp : PrometheeInput) (a : ℕ) (l : List ℕ) :
    (l.map fun b => preference_entry inp b a).sum =
      ((l.filter fun b => b ≠ a).map fun b => aggregated_preference inp b a).sum := by
  induction l with
  | nil => simp
  | cons x t ih =>
    simp only [ne_eq, decide_not] at ih ⊢
    rw [List.map_cons, List.sum_cons, List.filter_cons, ih]
    by_cases hx : x = a
    · subst hx
      simp [preference_entry]
    · simp [preference_entry, hx]

/-- Distributing `List.sum` over a pointwise sum of two maps. -/
lemma list_sum_map_add {α : Type} (l : List α) (f g : α → ℝ) :
    (l.map fun x => f x + g x).sum = (l.map f).sum + (l.map g).sum := by
  induction l with
  | nil => simp
  | cons x t ih => simp [ih]; ring

/-- The aggregated preference is monotone under a pointwise bound on the
per-criterion score differences, given non-negative weights. -/
lemma aggregated_preference_le (inp : PrometheeInput) {a₁ b₁ a₂ b₂ : ℕ}
    (hw : ∀ cw ∈ inp.criteria_weights, (0:ℝ) ≤ cw.2)
    (hd : ∀ cw ∈ inp.criteria_weights,
      score_of inp a₁ cw.1 - score_of inp b₁ cw.1 ≤
        score_of inp a₂ cw.1 - score_of inp b₂ cw.1) :
    aggregated_preference inp a₁ b₁ ≤ aggregated_preference inp a₂ b₂ := by
  unfold aggregated_preference
  apply List.sum_le_sum
  intro cw hcw
  exact mul_le_mul_of_nonneg_left
    (calculate_preference_value_mono _ _ _ (hd cw hcw)) (hw cw hcw)

/-- C5: monotonicity of net flows.  If supplier `X` scores at least as
well as supplier `Y` on every criterion (and strictly better on one), with
everything else fixed, then `X`'s net flow is at least `Y`'s. -/
theorem net_flow_monotone (inp : PrometheeInput) (X Y : ℕ)
    (hX : X ∈ inp.suppliers) (hXY : X ≠ Y)
    (hw : ∀ cw ∈ inp.criteria_weights, (0:ℝ) ≤ cw.2)
    (hdom : ∀ cw ∈ inp.criteria_weights,
      score_of inp Y cw.1 ≤ score_of inp X cw.1)
    (hstrict : ∃ cw ∈ inp.criteria_weights,
      score_of inp Y cw.1 < score_of inp X cw.1) :
    net_flow inp Y ≤ net_flow inp X := by
  have hπ : aggregated_preference inp Y X ≤ aggregated_preference inp X Y :=
    aggregated_preference_le inp hw
      (fun cw hcw => by have := hdom cw hcw; linarith)
  have key : ∀ b ∈ inp.suppliers,
      preference_entry inp Y b + preference_entry inp b X ≤
        preference_entry inp X b + preference_entry inp b Y := by
    intro b _
    by_cases hbX : b = X
    · subst hbX
      simp only [preference_entry, if_neg (Ne.symm hXY), if_pos rfl,
        if_neg hXY]
      linarith
    · by_cases hbY : b = Y
      · subst hbY
        simp only [preference_entry, if_pos rfl, if_neg hXY,
          if_neg (Ne.symm hXY)]
        linarith
      · have h1 : aggregated_preference inp Y b ≤ aggregated_preference inp X b :=
          aggregated_preference_le inp hw
            (fun cw hcw => by have := hdom cw hcw; linarith)
        have h2 : aggregated_preference inp b X ≤ aggregated_preference inp b Y :=
          aggregated_preference_le inp hw
            (fun cw hcw => by have := hdom cw hcw; linarith)
        simp only [preference_entry, if_neg (Ne.symm hbY), if_neg hbX,
          if_neg (Ne.symm hbX), if_neg hbY]
        linarith
  have hsum := List.sum_le_sum key
  rw [list_sum_map_add, list_sum_map_add] at hsum
  have hn : (0:ℝ) < inp.suppliers.length := by
    exact_mod_cast List.length_pos_of_mem hX
  have hdiv :
      ((inp.suppliers.map fun b => preference_entry inp Y b).sum +
        (inp.suppliers.map fun b => preference_entry inp b X).sum) /
          inp.suppliers.length ≤
      ((inp.suppliers.map fun b => preference_entry inp X b).sum +
        (inp.suppliers.map fun b => preference_entry inp b Y).sum) /
          inp.suppliers.length := by
    gcongr
  rw [add_div, add_div] at hdiv
  unfold net_flow positive_flow negative_flow
  linarith

/-! ## The two-supplier, one-criterion sanity-check input

Supplier 1 (= S1) scores 8 and supplier 2 (= S2) scores 5 on the single
criterion "Quality", with weight 1.0, linear shape, `q = 0.5`, `p = 2.0`. -/

noncomputable def two_supplier_input : PrometheeInput where
  supplier_scores :=
    [(1, fun c => if c = "Quality" then some 8 else none),
     (2, fun c => if c = "Quality" then some 5 else none)]
  criteria_weights := [("Quality", 1)]
  preference_functions := fun _ => some "linear"
  preference_thresholds := fun _ => 2
  indifference_thresholds := fun _ => 1/2

lemma two_supplier_suppliers : two_supplier_input.suppliers = [1, 2] := rfl

lemma two_supplier_score_1 : score_of two_supplier_input 1 "Quality" = 8 := by
  simp [score_of, two_supplier_input, List.lookup]

lemma two_supplier_score_2 : score_of two_supplier_input 2 "Quality" = 5 := by
  simp [score_of, two_supplier_input, List.lookup]

lemma two_supplier_weights :
    two_supplier_input.criteria_weights = [("Quality", 1)] := rfl

lemma two_supplier_pi_12 : aggregated_preference two_supplier_input 1 2 = 1 := by
  rw [aggregated_preference, two_supplier_weights]
  simp only [List.map_cons, List.map_nil, List.sum_cons, List.sum_nil]
  rw [show two_supplier_input.preference_functions "Quality" = some "linear" from rfl,
    show two_supplier_input.indifference_thresholds "Quality" = 1/2 from rfl,
    show two_supplier_input.preference_thresholds "Quality" = 2 from rfl,
    two_supplier_score_1, two_supplier_score_2, Option.getD_some]
  norm_num [calculate_preference_value_linear]

lemma two_supplier_pi_21 : aggregated_preference two_supplier_input 2 1 = 0 := by
  rw [aggregated_preference, two_supplier_weights]
  simp only [List.map_cons, List.map_nil, List.sum_cons, List.sum_nil]
  rw [show two_supplier_input.preference_functions "Quality" = some "linear" from rfl,
    show two_supplier_input.indifference_thresholds "Quality" = 1/2 from rfl,
    show two_supplier_input.preference_thresholds "Quality" = 2 from rfl,
    two_supplier_score_2, two_supplier_score_1, Option.getD_some]
  norm_num [calculate_preference_value_linear]

lemma two_supplier_pos_1 : positive_flow two_supplier_input 1 = 1/2 := by
  rw [positive_flow, two_supplier_suppliers]
  simp [preference_entry, two_supplier_pi_12]

lemma two_supplier_neg_1 : negative_flow two_supplier_input 1 = 0 := by
  rw [negative_flow, two_supplier_suppliers]
  simp [preference_entry, two_supplier_pi_21]

lemma two_supplier_pos_2 : positive_flow two_supplier_input 2 = 0 := by
  rw [positive_flow, two_supplier_suppliers]
  simp [preference_entry, two_supplier_pi_21]

lemma two_supplier_neg_2 : negative_flow two_supplier_input 2 = 1/2 := by
  rw [negative_flow, two_supplier_suppliers]
  simp [preference_entry, two_supplier_pi_12]

lemma two_supplier_net_1 : net_flow two_supplier_input 1 = 1/2 := by
  rw [net_flow, two_supplier_pos_1, two_supplier_neg_1]; norm_num

lemma two_supplier_net_2 : net_flow two_supplier_input 2 = -(1/2) := by
  rw [net_flow, two_supplier_pos_2, two_supplier_neg_2]; norm_num

lemma two_supplier_net_at_0 : net_flow_at two_supplier_input 0 = 1/2 := by
  rw [net_flow_at, two_supplier_suppliers]
  exact two_supplier_net_1

lemma two_supplier_net_at_1 : net_flow_at two_supplier_input 1 = -(1/2) := by
  rw [net_flow_at, two_supplier_suppliers]
  exact two_supplier_net_2

lemma two_supplier_ranking : promethee_ranking two_supplier_input = [0, 1] := by
  rw [promethee_ranking, two_supplier_suppliers]
  show List.insertionSort _ (List.range 2) = [0, 1]
  rw [show List.range 2 = [0, 1] from by decide]
  simp only [List.insertionSort, List.orderedInsert]
  rw [if_pos (by rw [two_supplier_net_at_0, two_supplier_net_at_1]; norm_num :
    net_flow_at two_supplier_input 1 ≤ net_flow_at two_supplier_input 0)]

/-- C1, counterexample to the claim as stated: on the two-alternative
input the source computes `positive_flow(S1) = 0.5`, not `1.0` — the
flows are `np.mean` over all `n` matrix entries of a row/column (the zero
diagonal included), not over the `n−1` other alternatives. -/
theorem positive_flow_two_suppliers_ne_one :
    positive_flow two_supplier_input 1 = 1/2 ∧ (1/2 : ℝ) ≠ 1 :=
  ⟨two_supplier_pos_1, by norm_num⟩

/-- C1, amended: the positive flow of `a` is the sum of `π(a,b)` over the
other alternatives divided by `n` (the row mean of the matrix, whose
diagonal entry is 0), the negative flow is the column mean, and net flow
is their difference; on the two-alternative sanity input this gives
`positive_flow(S1) = 0.5`, `net_flow(S1) = 0.5`, `net_flow(S2) = −0.5`,
and ranking `[S1, S2]` (positions `[0, 1]` of the supplier list
`[1, 2]`). -/
theorem promethee_flow_formulas_and_two_supplier_case :
    (∀ (inp : PrometheeInput) (a : ℕ),
      positive_flow inp a =
        ((inp.suppliers.filter fun b => b ≠ a).map
          fun b => aggregated_preference inp a b).sum / inp.suppliers.length ∧
      negative_flow inp a =
        ((inp.suppliers.filter fun b => b ≠ a).map
          fun b => aggregated_preference inp b a).sum / inp.suppliers.length ∧
      net_flow inp a = positive_flow inp a - negative_flow inp a) ∧
    two_supplier_input.suppliers = [1, 2] ∧
    positive_flow two_supplier_input 1 = 1/2 ∧
    net_flow two_supplier_input 1 = 1/2 ∧
    net_flow two_supplier_input 2 = -(1/2) ∧
    promethee_ranking two_supplier_input = [0, 1] := by
  refine ⟨fun inp a => ⟨?_, ?_, rfl⟩, two_supplier_suppliers,
    two_supplier_pos_1, two_supplier_net_1, two_supplier_net_2,
    two_supplier_ranking⟩
  · rw [positive_flow, row_sum_eq_off_diagonal]
  · rw [negative_flow, col_sum_eq_off_diagonal]

/-- Witness for `net_flow_monotone`: applied to the concrete
two-supplier input with `X = 1` (scores 8) and `Y = 2` (scores 5). -/
theorem net_flow_monotone_witness :
    net_flow two_supplier_input 2 ≤ net_flow two_supplier_input 1 :=
  net_flow_monotone two_supplier_input 1 2
    (by rw [two_supplier_suppliers]; exact List.mem_cons_self 1 [2])
    (by decide)
    (by intro cw hcw
        simp only [two_supplier_input, List.mem_singleton] at hcw
        rw [hcw]; norm_num)
    (by intro cw hcw
        simp only [two_supplier_input, List.mem_singleton] at hcw
        rw [hcw, two_supplier_score_1, two_supplier_score_2]; norm_num)
    ⟨("Quality", 1), by simp [two_supplier_input],
      by rw [two_supplier_score_1, two_supplier_score_2]; norm_num⟩

/-! ## Score assembly of the `/api/promethee/calculate` endpoint

`calculate_promethee_ranking` (`unified_api.py`) builds the PROMETHEE
input from the aggregated scores dict
`supplier_id → criterion → {score, source, count}`.  A cell absent from a
supplier's dict is recorded in `missing_evaluations` when the criterion is
one of the hard-coded `PROFILE_CRITERIA`, and otherwise defaulted to score
`0.0` with confidence `0`.  If any profile cell is missing the endpoint
raises before `calculate_promethee_ii` is ever called; the raised error
message enumerates exactly the missing (supplier, criterion) pairs, which
the embedding models as the error payload. -/

def PROFILE_CRITERIA : List String :=
  ["Product/Service Type", "Geographical Network", "Method of Sourcing",
   "Investment in Equipment", "Reciprocal Business", "B-BBEE Level"]

/-- One cell of the aggregated scores: `{'score': …, 'source': …, 'count': …}`. -/
structure ScoreEntry where
  score : ℝ
  source : String
  count : ℕ

/-- The `missing_evaluations` list: for each supplier (in dict order) and
each requested criterion (in request order), the pairs whose cell is
absent and whose criterion is profile-class. -/
def missing_evaluations
    (aggregated_scores : List (ℕ × (String → Option ScoreEntry)))
    (criteria_names : List String) : List (ℕ × String) :=
  aggregated_scores.flatMap fun sd =>
    (criteria_names.filter fun c =>
      (sd.2 c).isNone && PROFILE_CRITERIA.contains c).map fun c => (sd.1, c)

/-- The per-supplier score dict built by the endpoint loop: a present cell
contributes its score; an absent survey-class cell is defaulted to `0.0`;
an absent profile-class cell stays absent (it goes to
`missing_evaluations` instead). -/
def assembled_score_map (criteria_names : List String)
    (data : String → Option ScoreEntry) : String → Option ℝ :=
  fun c =>
    if c ∈ criteria_names then
      match data c with
      | some e => some e.score
      | none => if c ∈ PROFILE_CRITERIA then none else some 0
    else none

/-- Confidence of a present cell: `1.0` for profile data,
`min(1.0, count / 3.0)` for survey data, `0.5` otherwise. -/
noncomputable def confidence_of (e : ScoreEntry) : ℝ :=
  if e.source = "profile" then 1
  else if e.source = "survey" then min 1 ((e.count : ℝ) / 3)
  else 0.5

/-- The `confidence_levels[supplier_id]` list built by the same loop:
present cells contribute `confidence_of`, absent survey-class cells
contribute `0`, absent profile-class cells contribute nothing. -/
noncomputable def confidence_levels_of (criteria_names : List String)
    (data : String → Option ScoreEntry) : List ℝ :=
  criteria_names.filterMap fun c =>
    match data c with
    | some e => some (confidence_of e)
    | none => if c ∈ PROFILE_CRITERIA then none else some 0

/-- The `PrometheeInput` handed to `calculate_promethee_ii` by the
endpoint: assembled scores, `dict(zip(criteria_names, criteria_weights))`,
and the request's preference configuration. -/
noncomputable def promethee_request_input
    (aggregated_scores : List (ℕ × (String → Option ScoreEntry)))
    (criteria_names : List String) (criteria_weights : List ℝ)
    (pf : String → Option String) (pt it : String → ℝ) : PrometheeInput where
  supplier_scores :=
    aggregated_scores.map fun sd => (sd.1, assembled_score_map criteria_names sd.2)
  criteria_weights := criteria_names.zip criteria_weights
  preference_functions := pf
  preference_thresholds := pt
  indifference_thresholds := it

/-- The endpoint: raise (model: `.error`) with the missing pairs when any
profile-class cell is missing, otherwise rank all suppliers.  The success
payload is the supplier list and the ranking positions. -/
noncomputable def calculate_promethee_ranking
    (aggregated_scores : List (ℕ × (String → Option ScoreEntry)))
    (criteria_names : List String) (criteria_weights : List ℝ)
    (pf : String → Option String) (pt it : String → ℝ) :
    Except (List (ℕ × String)) (List ℕ × List ℕ) :=
  let missing := missing_evaluations aggregated_scores criteria_names
  if missing = [] then
    let inp := promethee_request_input aggregated_scores criteria_names
      criteria_weights pf pt it
    .ok (inp.suppliers, promethee_ranking inp)
  else .error missing

/-- C3: the missing-data policy of the ranking endpoint.
(1) `missing_evaluations` lists exactly the (supplier, criterion) pairs
whose cell is absent and whose criterion is profile-class;
(2) when that list is non-empty the endpoint fails with it and computes no
ranking; (3) when it is empty the endpoint returns a ranking covering all
suppliers; (4) an absent survey-class cell is filled with the default
score `0` at zero confidence. -/
theorem ranking_missing_data_policy
    (aggregated_scores : List (ℕ × (String → Option ScoreEntry)))
    (criteria_names : List String) (criteria_weights : List ℝ)
    (pf : String → Option String) (pt it : String → ℝ) :
    (∀ s c, (s, c) ∈ missing_evaluations aggregated_scores criteria_names ↔
      ∃ data, (s, data) ∈ aggregated_scores ∧ c ∈ criteria_names ∧
        data c = none ∧ c ∈ PROFILE_CRITERIA) ∧
    (missing_evaluations aggregated_scores criteria_names ≠ [] →
      calculate_promethee_ranking aggregated_scores criteria_names
          criteria_weights pf pt it =
        .error (missing_evaluations aggregated_scores criteria_names)) ∧
    (missing_evaluations aggregated_scores criteria_names = [] →
      calculate_promethee_ranking aggregated_scores criteria_names
          criteria_weights pf pt it =
        .ok (aggregated_scores.map Prod.fst,
          promethee_ranking (promethee_request_input aggregated_scores
            criteria_names criteria_weights pf pt it)) ∧
      (promethee_ranking (promethee_request_input aggregated_scores
        criteria_names criteria_weights pf pt it)).Perm
          (List.range aggregated_scores.length)) ∧
    (∀ (data : String → Option ScoreEntry) (c : String), c ∈ criteria_names →
      data c = none → c ∉ PROFILE_CRITERIA →
      assembled_score_map criteria_names data c = some 0 ∧
      (0:ℝ) ∈ confidence_levels_of criteria_names data) := by
  refine ⟨fun s c => ?_, fun hne => ?_, fun hemp => ⟨?_, ?_⟩,
    fun data c h1 h2 h3 => ⟨?_, ?_⟩⟩
  · constructor
    · intro h
      simp only [missing_evaluations, List.mem_flatMap] at h
      obtain ⟨sd, hsd, hin⟩ := h
      simp only [List.mem_map, List.mem_filter, Bool.and_eq_true,
        Option.isNone_iff_eq_none] at hin
      obtain ⟨c', ⟨hc'n, hc'none, hc'prof⟩, heq⟩ := hin
      have h1 : sd.1 = s := congrArg Prod.fst heq
      have h2 : c' = c := congrArg Prod.snd heq
      subst h2
      refine ⟨sd.2, ?_, hc'n, hc'none, List.elem_iff.mp hc'prof⟩
      rw [← h1]
      simpa using hsd
    · rintro ⟨data, hmem, hc, hnone, hprof⟩
      simp only [missing_evaluations, List.mem_flatMap]
      refine ⟨(s, data), hmem, ?_⟩
      simp only [List.mem_map, List.mem_filter, Bool.and_eq_true,
        Option.isNone_iff_eq_none]
      exact ⟨c, ⟨hc, hnone, List.elem_iff.mpr hprof⟩, rfl⟩
  · simp only [calculate_promethee_ranking, if_neg hne]
  · simp only [calculate_promethee_ranking, if_pos hemp, Except.ok.injEq,
      Prod.mk.injEq]
    refine ⟨?_, trivial⟩
    simp [promethee_request_input, PrometheeInput.suppliers]
  · have hperm := List.perm_insertionSort
      (fun i j =>
        net_flow_at (promethee_request_input aggregated_scores criteria_names
          criteria_weights pf pt it) j ≤
        net_flow_at (promethee_request_input aggregated_scores criteria_names
          criteria_weights pf pt it) i)
      (List.range (promethee_request_input aggregated_scores criteria_names
        criteria_weights pf pt it).suppliers.length)
    have hlen : (promethee_request_input aggregated_scores criteria_names
        criteria_weights pf pt it).suppliers.length =
        aggregated_scores.length := by
      simp [promethee_request_input, PrometheeInput.suppliers]
    rw [promethee_ranking]
    rw [hlen] at hperm ⊢
    exact hperm
  · simp [assembled_score_map, h1, h2, h3]
  · refine List.mem_filterMap.mpr ⟨c, h1, ?_⟩
    simp [h2, h3]

/-- Witness for `ranking_missing_data_policy`: a supplier with an empty
score dict blocks the ranking for the profile-class criterion
"B-BBEE Level" (error listing that pair), yet still gets a ranking for the
survey-class criterion "Quality". -/
theorem ranking_missing_data_policy_witness :
    calculate_promethee_ranking [(1, (fun _ => none : String → Option ScoreEntry))]
        ["B-BBEE Level"] [1] (fun _ => none) (fun _ => 2) (fun _ => 1/2) =
      .error [(1, "B-BBEE Level")] ∧
    calculate_promethee_ranking [(1, (fun _ => none : String → Option ScoreEntry))]
        ["Quality"] [1] (fun _ => none) (fun _ => 2) (fun _ => 1/2) =
      .ok ([1], promethee_ranking (promethee_request_input
        [(1, (fun _ => none : String → Option ScoreEntry))] ["Quality"] [1]
        (fun _ => none) (fun _ => 2) (fun _ => 1/2))) := by
  constructor
  · exact (ranking_missing_data_policy
      [(1, (fun _ => none : String → Option ScoreEntry))] ["B-BBEE Level"] [1]
      (fun _ => none) (fun _ => 2) (fun _ => 1/2)).2.1
      (by rw [show missing_evaluations
            [(1, (fun _ => none : String → Option ScoreEntry))] ["B-BBEE Level"] =
            [(1, "B-BBEE Level")] from rfl]
          exact List.cons_ne_nil _ _)
  · exact ((ranking_missing_data_policy
      [(1, (fun _ => none : String → Option ScoreEntry))] ["Quality"] [1]
      (fun _ => none) (fun _ => 2) (fun _ => 1/2)).2.2.1 rfl).1

/-! ## Best-Worst Method: validation state machine (`best_worst_method.py`)

Comparison values are modelled as exact rationals.  Python's `raise` is
modelled by `Except`: a `.error` result carries no successor state, which
matches the source, where every `raise` in `set_best_worst` /
`set_best_to_others` / `set_others_to_worst` happens before any attribute
assignment (the whole comparisons dict is validated first), so a failed
call leaves the object — including `self.weights` — untouched.  The stored
comparison dicts are association lists keyed by `Option String` because
the source writes `self.best_to_others[self.best_criterion] = 1.0` with
`self.best_criterion` possibly still `None`. -/

/-- The distinct `ValueError` raise sites of the BWM setters. -/
inductive BWMError where
  | best_worst_not_in_criteria
  | best_eq_worst
  | criterion_not_in_list (criterion : String)
  | comparison_out_of_range (value : ℚ)
  deriving DecidableEq

/-- The mutable state of class `BestWorstMethod`. -/
structure BestWorstMethod where
  criteria : List String
  best_criterion : Option String
  worst_criterion : Option String
  best_to_others : List (Option String × ℚ)
  others_to_worst : List (Option String × ℚ)
  weights : List (String × ℚ)
  deriving DecidableEq

/-- `__init__` followed by `set_criteria`: criteria stored, weights reset
to `0.0` per criterion. -/
def set_criteria (criteria : List String) : BestWorstMethod where
  criteria := criteria
  best_criterion := none
  worst_criterion := none
  best_to_others := []
  others_to_worst := []
  weights := criteria.map fun c => (c, 0)

/-- `set_best_worst`: membership is checked before distinctness, as in the
source. -/
def set_best_worst (bwm : BestWorstMethod) (best worst : String) :
    Except BWMError BestWorstMethod :=
  if best ∉ bwm.criteria ∨ worst ∉ bwm.criteria then
    .error .best_worst_not_in_criteria
  else if best = worst then .error .best_eq_worst
  else .ok { bwm with best_criterion := some best, worst_criterion := some worst }

/-- The validation loop shared by `set_best_to_others` and
`set_others_to_worst`: every item is checked for a known criterion name and
a value in the closed interval `[1, 9]`, in dict order; the first failure
wins. -/
def validate_comparisons (criteria : List String) :
    List (String × ℚ) → Option BWMError
  | [] => none
  | (c, v) :: rest =>
    if c ∉ criteria then some (.criterion_not_in_list c)
    else if ¬(1 ≤ v ∧ v ≤ 9) then some (.comparison_out_of_range v)
    else validate_comparisons criteria rest

/-- Python dict assignment `d[k] = v`: replace in place when the key
exists, append otherwise. -/
def dict_set (d : List (Option String × ℚ)) (k : Option String) (v : ℚ) :
    List (Option String × ℚ) :=
  if d.any fun p => p.1 = k then d.map fun p => if p.1 = k then (k, v) else p
  else d ++ [(k, v)]

/-- `set_best_to_others`: validate every item, then store a copy of the
comparisons and overwrite the best criterion's self-comparison with `1.0`. -/
def set_best_to_others (bwm : BestWorstMethod)
    (comparisons : List (String × ℚ)) : Except BWMError BestWorstMethod :=
  match validate_comparisons bwm.criteria comparisons with
  | some e => .error e
  | none =>
    .ok { bwm with
          best_to_others :=
            dict_set (comparisons.map fun p => (some p.1, p.2)) bwm.best_criterion 1 }

/-- `set_others_to_worst`: symmetric to `set_best_to_others`. -/
def set_others_to_worst (bwm : BestWorstMethod)
    (comparisons : List (String × ℚ)) : Except BWMError BestWorstMethod :=
  match validate_comparisons bwm.criteria comparisons with
  | some e => .error e
  | none =>
    .ok { bwm with
          others_to_worst :=
            dict_set (comparisons.map fun p => (some p.1, p.2)) bwm.worst_criterion 1 }

lemma beq_eq_false_of_ne {a k : Option String} (h : ¬a = k) : (k == a) = false := by
  simp [beq_iff_eq]
  exact Ne.symm h

lemma lookup_map_overwrite (k : Option String) (v : ℚ) (d : List (Option String × ℚ)) :
    (d.any fun p => p.1 = k) = true →
      (d.map fun p => if p.1 = k then (k, v) else p).lookup k = some v := by
  induction d with
  | nil => intro h; simp at h
  | cons a t ih =>
    intro h
    simp only [List.any_cons, Bool.or_eq_true, decide_eq_true_eq] at h
    rw [List.map_cons]
    by_cases hk : a.1 = k
    · rw [if_pos hk, List.lookup_cons_self]
    · rw [if_neg hk, List.lookup_cons, beq_eq_false_of_ne hk]
      exact ih (h.resolve_left hk)

lemma lookup_append_new (k : Option String) (v : ℚ) (d : List (Option String × ℚ)) :
    (d.any fun p => p.1 = k) = false → (d ++ [(k, v)]).lookup k = some v := by
  induction d with
  | nil => intro _; simp
  | cons a t ih =>
    intro h
    simp only [List.any_cons, Bool.or_eq_true, decide_eq_true_eq, not_or,
      Bool.or_eq_false_iff, decide_eq_false_iff_not] at h
    rw [List.cons_append, List.lookup_cons, beq_eq_false_of_ne h.1]
    exact ih h.2

/-- After `d[k] = v`, looking up `k` yields `v`. -/
lemma dict_set_lookup (d : List (Option String × ℚ)) (k : Option String) (v : ℚ) :
    (dict_set d k v).lookup k = some v := by
  rw [dict_set]
  split_ifs with hany
  · exact lookup_map_overwrite k v d hany
  · exact lookup_append_new k v d (by simp only [Bool.not_eq_true] at hany; exact hany)

/-- If every comparison key is a known criterion and some value is outside
`[1, 9]`, the validation loop reports an out-of-range value (the first
offending one). -/
lemma validate_comparisons_out_of_range (criteria : List String)
    (comparisons : List (String × ℚ))
    (hkeys : ∀ p ∈ comparisons, p.1 ∈ criteria)
    (hbad : ∃ p ∈ comparisons, ¬(1 ≤ p.2 ∧ p.2 ≤ 9)) :
    ∃ u, validate_comparisons criteria comparisons =
      some (.comparison_out_of_range u) ∧ ¬(1 ≤ u ∧ u ≤ 9) := by
  induction comparisons with
  | nil => obtain ⟨p, hp, _⟩ := hbad; simp at hp
  | cons a t ih =>
    obtain ⟨c, v⟩ := a
    have hc : c ∈ criteria := hkeys (c, v) (List.mem_cons_self _ _)
    simp only [validate_comparisons]
    rw [if_neg (not_not_intro hc)]
    by_cases hv : 1 ≤ v ∧ v ≤ 9
    · rw [if_neg (not_not_intro hv)]
      apply ih (fun p hp => hkeys p (List.mem_cons_of_mem _ hp))
      obtain ⟨p, hp, hpv⟩ := hbad
      rcases List.mem_cons.mp hp with rfl | hmem
      · exact absurd hv hpv
      · exact ⟨p, hmem, hpv⟩
    · exact ⟨v, by rw [if_pos hv], hv⟩

/-- C10: a successful `set_best_to_others` (resp. `set_others_to_worst`)
stores `1.0` at the best (resp. worst) criterion's key, silently
overwriting any in-range value the caller supplied there, while an
out-of-range self-comparison value still fails validation (which runs over
every supplied item before the overwrite). -/
theorem self_comparison_forced_to_one :
    (∀ (bwm : BestWorstMethod) (comparisons : List (String × ℚ)) (b : String)
        (bwm' : BestWorstMethod),
      bwm.best_criterion = some b →
      set_best_to_others bwm comparisons = .ok bwm' →
      bwm'.best_to_others.lookup (some b) = some 1) ∧
    (∀ (bwm : BestWorstMethod) (comparisons : List (String × ℚ)) (w : String)
        (bwm' : BestWorstMethod),
      bwm.worst_criterion = some w →
      set_others_to_worst bwm comparisons = .ok bwm' →
      bwm'.others_to_worst.lookup (some w) = some 1) ∧
    (∀ (bwm : BestWorstMethod) (comparisons : List (String × ℚ)) (b : String) (v : ℚ),
      bwm.best_criterion = some b →
      (∀ p ∈ comparisons, p.1 ∈ bwm.criteria) →
      (b, v) ∈ comparisons → ¬(1 ≤ v ∧ v ≤ 9) →
      ∃ u, set_best_to_others bwm comparisons =
        .error (.comparison_out_of_range u) ∧ ¬(1 ≤ u ∧ u ≤ 9)) ∧
    (∀ (bwm : BestWorstMethod) (comparisons : List (String × ℚ)) (w : String) (v : ℚ),
      bwm.worst_criterion = some w →
      (∀ p ∈ comparisons, p.1 ∈ bwm.criteria) →
      (w, v) ∈ comparisons → ¬(1 ≤ v ∧ v ≤ 9) →
      ∃ u, set_others_to_worst bwm comparisons =
        .error (.comparison_out_of_range u) ∧ ¬(1 ≤ u ∧ u ≤ 9)) := by
  refine ⟨?_, ?_, ?_, ?_⟩
  · intro bwm comps b bwm' hb hok
    rw [set_best_to_others] at hok
    cases hval : validate_comparisons bwm.criteria comps with
    | some e => rw [hval] at hok; simp at hok
    | none =>
      rw [hval] at hok
      simp only [Except.ok.injEq] at hok
      rw [← hok]
      show (dict_set (comps.map fun p => (some p.1, p.2))
        bwm.best_criterion 1).lookup (some b) = some 1
      rw [hb]
      exact dict_set_lookup _ _ _
  · intro bwm comps w bwm' hw hok
    rw [set_others_to_worst] at hok
    cases hval : validate_comparisons bwm.criteria comps with
    | some e => rw [hval] at hok; simp at hok
    | none =>
      rw [hval] at hok
      simp only [Except.ok.injEq] at hok
      rw [← hok]
      show (dict_set (comps.map fun p => (some p.1, p.2))
        bwm.worst_criterion 1).lookup (some w) = some 1
      rw [hw]
      exact dict_set_lookup _ _ _
  · intro bwm comps b v hb hkeys hmem hv
    obtain ⟨u, hu, huv⟩ := validate_comparisons_out_of_range bwm.criteria comps
      hkeys ⟨(b, v), hmem, hv⟩
    exact ⟨u, by rw [set_best_to_others, hu], huv⟩
  · intro bwm comps w v hw hkeys hmem hv
    obtain ⟨u, hu, huv⟩ := validate_comparisons_out_of_range bwm.criteria comps
      hkeys ⟨(w, v), hmem, hv⟩
    exact ⟨u, by rw [set_others_to_worst, hu], huv⟩

/-- A configured BWM state: criteria A/B, best A, worst B. -/
def configured_bwm : BestWorstMethod where
  criteria := ["A", "B"]
  best_criterion := some "A"
  worst_criterion := some "B"
  best_to_others := []
  others_to_worst := []
  weights := [("A", 0), ("B", 0)]

/-- Witness for `self_comparison_forced_to_one`: supplying the in-range
self-comparison `A ↦ 5` still stores `A ↦ 1`, and the out-of-range
self-comparison `A ↦ 10` is rejected. -/
theorem self_comparison_forced_to_one_witness :
    set_best_to_others configured_bwm [("A", 5), ("B", 2)] =
      .ok { configured_bwm with
            best_to_others := [(some "A", 1), (some "B", 2)] } ∧
    ({ configured_bwm with
       best_to_others := [(some "A", 1), (some "B", 2)] } :
        BestWorstMethod).best_to_others.lookup (some "A") = some 1 ∧
    (∃ u, set_best_to_others configured_bwm [("A", 10)] =
      .error (.comparison_out_of_range u) ∧ ¬(1 ≤ u ∧ u ≤ 9)) := by
  have h1 : set_best_to_others configured_bwm [("A", 5), ("B", 2)] =
      .ok { configured_bwm with
            best_to_others := [(some "A", 1), (some "B", 2)] } := by rfl
  refine ⟨h1, ?_, ?_⟩
  · exact self_comparison_forced_to_one.1 configured_bwm [("A", 5), ("B", 2)]
      "A" _ rfl h1
  · exact self_comparison_forced_to_one.2.2.1 configured_bwm [("A", 10)] "A" 10
      rfl (by intro p hp; simp only [List.mem_singleton] at hp; rw [hp]; decide)
      (by simp) (by norm_num)

/-- C8: `set_best_worst` with `best == worst` fails with the
"must be different" `ValueError`, and a comparison value outside `[1, 9]`
(for example 10) makes both comparison setters fail with the out-of-range
`ValueError`.  In the `Except` model an error result carries no new state,
matching the source, where every raise happens before any attribute
assignment, so no partial computation survives and no weights are
produced. -/
theorem bwm_validation_rejection :
    (∀ (bwm : BestWorstMethod) (b : String), b ∈ bwm.criteria →
      set_best_worst bwm b b = .error .best_eq_worst) ∧
    (∀ (bwm : BestWorstMethod) (comparisons : List (String × ℚ)) (c : String) (v : ℚ),
      (∀ p ∈ comparisons, p.1 ∈ bwm.criteria) →
      (c, v) ∈ comparisons → ¬(1 ≤ v ∧ v ≤ 9) →
      (∃ u, set_best_to_others bwm comparisons =
        .error (.comparison_out_of_range u) ∧ ¬(1 ≤ u ∧ u ≤ 9)) ∧
      (∃ u, set_others_to_worst bwm comparisons =
        .error (.comparison_out_of_range u) ∧ ¬(1 ≤ u ∧ u ≤ 9))) := by
  constructor
  · intro bwm b hb
    rw [set_best_worst, if_neg (by simp [hb]), if_pos rfl]
  · intro bwm comps c v hkeys hmem hv
    obtain ⟨u, hu, huv⟩ := validate_comparisons_out_of_range bwm.criteria comps
      hkeys ⟨(c, v), hmem, hv⟩
    exact ⟨⟨u, by rw [set_best_to_others, hu], huv⟩,
      ⟨u, by rw [set_others_to_worst, hu], huv⟩⟩

/-- Witness for `bwm_validation_rejection` at concrete inputs: criteria
`[A, B]`, `set_best_worst` with `A == A`, and the comparison value 10. -/
theorem bwm_validation_rejection_witness :
    set_best_worst (set_criteria ["A", "B"]) "A" "A" = .error .best_eq_worst ∧
    (∃ u, set_best_to_others (set_criteria ["A", "B"]) [("A", 10)] =
      .error (.comparison_out_of_range u) ∧ ¬(1 ≤ u ∧ u ≤ 9)) ∧
    (∃ u, set_others_to_worst (set_criteria ["A", "B"]) [("A", 10)] =
      .error (.comparison_out_of_range u) ∧ ¬(1 ≤ u ∧ u ≤ 9)) := by
  have h := bwm_validation_rejection.2 (set_criteria ["A", "B"]) [("A", 10)]
    "A" 10 (by intro p hp; simp only [List.mem_singleton] at hp; rw [hp]; decide)
    (by simp) (by norm_num)
  exact ⟨bwm_validation_rejection.1 (set_criteria ["A", "B"]) "A" (by decide),
    h.1, h.2⟩

/-! ## Best-Worst Method: the linear program of `calculate_weights`

`calculate_weights` builds variables `w_1, …, w_n, ξ` and hands
`scipy.optimize.linprog` the objective “minimize ξ” under: bounds
`(0, None)` on every variable; for each criterion `c ≠ best` the rows
`w_best − k_BO(c)·w_c − ξ ≤ 0` and `k_BO(c)·w_c − w_best − ξ ≤ 0`; for
each `c ≠ worst` the rows `w_c − k_OW(c)·w_worst − ξ ≤ 0` and
`k_OW(c)·w_worst − w_c − ξ ≤ 0`; and the equality row `Σ w = 1`.  On
`result.success` it returns `solution[:n]` as the weights and
`solution[-1]` as the consistency ratio.  The solver itself is external
(HiGHS), so the embedding is the feasible set of that program: the
returned solution is a feasible point, and an optimal one. -/

/-- Membership in the feasible region of the linear program constructed by
`calculate_weights`, for a weight assignment `w` and auxiliary variable
`xi`. -/
def bwm_lp_feasible (criteria : List String) (best worst : String)
    (best_to_others others_to_worst : String → ℝ) (w : String → ℝ) (xi : ℝ) :
    Prop :=
  (∀ c ∈ criteria, 0 ≤ w c) ∧ 0 ≤ xi ∧
  (criteria.map w).sum = 1 ∧
  (∀ c ∈ criteria, c ≠ best →
    w best - best_to_others c * w c ≤ xi ∧
    best_to_others c * w c - w best ≤ xi) ∧
  (∀ c ∈ criteria, c ≠ worst →
    w c - others_to_worst c * w worst ≤ xi ∧
    others_to_worst c * w worst - w c ≤ xi)

lemma list_sum_map_const (l : List String) (x : ℝ) :
    (l.map fun _ => x).sum = l.length * x := by
  induction l with
  | nil => simp
  | cons a t ih => simp [ih]; ring

/-- C2: for every valid BWM input the program is solvable, and any
solution of it — in particular the one `calculate_weights` extracts from a
successful solve — has all weights `≥ 0` and weights summing to `1`
exactly (hence within the claimed `1e-6`). -/
theorem bwm_weights_nonneg_and_normalized
    (criteria : List String) (best worst : String)
    (best_to_others others_to_worst : String → ℝ)
    (hne : criteria ≠ []) (hbest : best ∈ criteria) (hworst : worst ∈ criteria)
    (hbw : best ≠ worst)
    (hrange : ∀ c ∈ criteria,
      (1 ≤ best_to_others c ∧ best_to_others c ≤ 9) ∧
      (1 ≤ others_to_worst c ∧ others_to_worst c ≤ 9)) :
    (∃ w xi, bwm_lp_feasible criteria best worst best_to_others others_to_worst w xi) ∧
    ∀ w xi, bwm_lp_feasible criteria best worst best_to_others others_to_worst w xi →
      (∀ c ∈ criteria, 0 ≤ w c) ∧ |(criteria.map w).sum - 1| ≤ 1 / 1000000 := by
  have hn : (0:ℝ) < criteria.length := by
    have := List.length_pos.mpr hne
    exact_mod_cast this
  have hn1 : (1:ℝ) ≤ criteria.length := by
    have := List.length_pos.mpr hne
    exact_mod_cast this
  have hinv : (0:ℝ) < 1 / criteria.length := by positivity
  have hinv1 : (1:ℝ) / criteria.length ≤ 1 := by
    rw [div_le_one hn]; exact hn1
  constructor
  · refine ⟨fun _ => 1 / criteria.length, 9, fun c _ => hinv.le, by norm_num,
      ?_, ?_, ?_⟩
    · rw [list_sum_map_const, mul_one_div, div_self (by positivity)]
    · intro c hc _
      obtain ⟨⟨hk1, hk9⟩, _⟩ := hrange c hc
      have aux1 : (1:ℝ) * (1 / criteria.length) ≤
          best_to_others c * (1 / criteria.length) :=
        mul_le_mul_of_nonneg_right hk1 hinv.le
      have aux2 : best_to_others c * (1 / criteria.length) ≤
          9 * (1 / criteria.length) :=
        mul_le_mul_of_nonneg_right hk9 hinv.le
      constructor <;> nlinarith
    · intro c hc _
      obtain ⟨_, hk1, hk9⟩ := hrange c hc
      have aux1 : (1:ℝ) * (1 / criteria.length) ≤
          others_to_worst c * (1 / criteria.length) :=
        mul_le_mul_of_nonneg_right hk1 hinv.le
      have aux2 : others_to_worst c * (1 / criteria.length) ≤
          9 * (1 / criteria.length) :=
        mul_le_mul_of_nonneg_right hk9 hinv.le
      constructor <;> nlinarith
  · intro w xi hfeas
    refine ⟨hfeas.1, ?_⟩
    rw [hfeas.2.2.1]
    norm_num

/-- Witness for `bwm_weights_nonneg_and_normalized`: criteria `[A, B]`,
best `A`, worst `B`, ratios `A→B = 3` (and the neutral self-entries). -/
theorem bwm_weights_nonneg_and_normalized_witness :
    (∃ w xi, bwm_lp_feasible ["A", "B"] "A" "B"
      (fun c => if c = "B" then 3 else 1)
      (fun c => if c = "A" then 3 else 1) w xi) ∧
    ∀ w xi, bwm_lp_feasible ["A", "B"] "A" "B"
      (fun c => if c = "B" then 3 else 1)
      (fun c => if c = "A" then 3 else 1) w xi →
      (∀ c ∈ ["A", "B"], 0 ≤ w c) ∧
      |((["A", "B"] : List String).map w).sum - 1| ≤ 1 / 1000000 :=
  bwm_weights_nonneg_and_normalized ["A", "B"] "A" "B" _ _
    (by decide) (by decide) (by decide) (by decide)
    (by intro c hc
        simp only [List.mem_cons, List.not_mem_nil, or_false] at hc
        rcases hc with rfl | rfl <;> simp <;> norm_num)

/-! ## The perfectly consistent three-criteria case -/

/-- `best_to_others = {A: 1, B: 2, C: 4}` as a lookup function. -/
noncomputable def consistent_best_to_others : String → ℝ :=
  fun c => if c = "B" then 2 else if c = "C" then 4 else 1

/-- `others_to_worst = {A: 4, B: 2, C: 1}` as a lookup function. -/
noncomputable def consistent_others_to_worst : String → ℝ :=
  fun c => if c = "A" then 4 else if c = "B" then 2 else 1

/-- The weight vector `{A: 4/7, B: 2/7, C: 1/7}`. -/
noncomputable def consistent_solution : String → ℝ :=
  fun c => if c = "A" then 4/7 else if c = "B" then 2/7 else 1/7

/-- `{A: 4/7, B: 2/7, C: 1/7}` with `ξ = 0` satisfies every constraint of
the program built for the perfectly consistent input. -/
lemma consistent_solution_feasible :
    bwm_lp_feasible ["A", "B", "C"] "A" "C" consistent_best_to_others
      consistent_others_to_worst consistent_solution 0 := by
  refine ⟨?_, le_refl 0, ?_, ?_, ?_⟩
  · intro c hc
    simp only [List.mem_cons, List.not_mem_nil, or_false] at hc
    rcases hc with rfl | rfl | rfl <;> simp [consistent_solution] <;> norm_num
  · simp [consistent_solution]
    norm_num
  · intro c hc hne
    simp only [List.mem_cons, List.not_mem_nil, or_false] at hc
    rcases hc with rfl | rfl | rfl
    · exact absurd rfl hne
    · simp [consistent_best_to_others, consistent_solution] <;> norm_num
    · simp [consistent_best_to_others, consistent_solution] <;> norm_num
  · intro c hc hne
    simp only [List.mem_cons, List.not_mem_nil, or_false] at hc
    rcases hc with rfl | rfl | rfl
    · simp [consistent_others_to_worst, consistent_solution] <;> norm_num
    · simp [consistent_others_to_worst, consistent_solution] <;> norm_num
    · exact absurd rfl hne

/-- C4: on the perfectly consistent input `criteria = [A, B, C]`,
`best = A`, `worst = C`, `best_to_others = {A:1, B:2, C:4}`,
`others_to_worst = {A:4, B:2, C:1}`, every optimal solution of the
program `calculate_weights` builds has consistency indicator exactly `0`
and weights exactly `{A: 4/7, B: 2/7, C: 1/7}`. -/
theorem consistent_case_optimal (w : String → ℝ) (xi : ℝ)
    (hfeas : bwm_lp_feasible ["A", "B", "C"] "A" "C" consistent_best_to_others
      consistent_others_to_worst w xi)
    (hopt : ∀ w' xi', bwm_lp_feasible ["A", "B", "C"] "A" "C"
      consistent_best_to_others consistent_others_to_worst w' xi' → xi ≤ xi') :
    xi = 0 ∧ w "A" = 4/7 ∧ w "B" = 2/7 ∧ w "C" = 1/7 := by
  have hxi : xi = 0 :=
    le_antisymm (hopt _ _ consistent_solution_feasible) hfeas.2.1
  obtain ⟨hpos, hxnn, hsum, hBO, hOW⟩ := hfeas
  have hB := hBO "B" (by simp) (by decide)
  have hC := hBO "C" (by simp) (by decide)
  have hA := hOW "A" (by simp) (by decide)
  have hB2 := hOW "B" (by simp) (by decide)
  rw [hxi] at hB hC hA hB2
  simp [consistent_best_to_others, consistent_others_to_worst] at hB hC hA hB2
  have hsum' : w "A" + w "B" + w "C" = 1 := by
    simpa [add_assoc] using hsum
  exact ⟨hxi, by linarith [hB.1, hB.2, hC.1, hC.2, hA.1, hA.2, hB2.1, hB2.2],
    by linarith [hB.1, hB.2, hC.1, hC.2, hA.1, hA.2, hB2.1, hB2.2],
    by linarith [hB.1, hB.2, hC.1, hC.2, hA.1, hA.2, hB2.1, hB2.2]⟩

/-- Witness for `consistent_case_optimal`: the canonical solution itself
is feasible and minimal (every feasible `ξ'` is `≥ 0` by the variable
bounds), so the theorem applies to it. -/
theorem consistent_case_optimal_witness :
    (0:ℝ) = 0 ∧ consistent_solution "A" = 4/7 ∧
      consistent_solution "B" = 2/7 ∧ consistent_solution "C" = 1/7 :=
  consistent_case_optimal consistent_solution 0 consistent_solution_feasible
    (fun _ _ h => h.2.1)

/-! ## Threshold recommendations (`database.py`)

`calculate_threshold_recommendations` collects, per criterion, the scores
present across suppliers; with fewer than two scores it falls back to
`(0.5, 2.0)`, otherwise it computes `data_range = max - min` and
dispatches on the criterion: members of the same hard-coded
`PROFILE_CRITERIA` set go to `_calculate_profile_threshold` (which
dispatches on substrings of the name), all others to
`_calculate_survey_threshold`.  All range-derived values pass through
Python's `round(x, 1)` — round-half-to-even at one decimal — modelled
exactly on `ℚ`.  The embedding keeps the returned
(indifference, preference) pair. -/

def list_min (l : List ℚ) : ℚ :=
  match l with
  | [] => 0
  | a :: t => t.foldl min a

def list_max (l : List ℚ) : ℚ :=
  match l with
  | [] => 0
  | a :: t => t.foldl max a

/-- Round to the nearest integer, ties to even (Python's `round`). -/
def round_half_even (x : ℚ) : ℤ :=
  if x - ⌊x⌋ < 1/2 then ⌊x⌋
  else if 1/2 < x - ⌊x⌋ then ⌊x⌋ + 1
  else if ⌊x⌋ % 2 = 0 then ⌊x⌋ else ⌊x⌋ + 1

/-- Python's `round(x, 1)`. -/
def py_round_1 (x : ℚ) : ℚ := (round_half_even (10 * x) : ℚ) / 10

def chars_start_with : List Char → List Char → Bool
  | _, [] => true
  | [], _ :: _ => false
  | a :: s, b :: p => a == b && chars_start_with s p

def chars_contain : List Char → List Char → Bool
  | [], pat => pat.isEmpty
  | a :: t, pat => chars_start_with (a :: t) pat || chars_contain t pat

/-- Python's substring test `pat in s`. -/
def str_contains (s pat : String) : Bool := chars_contain s.toList pat.toList

/-- `_calculate_profile_threshold`, reduced to the returned
(indifference, preference) pair as a function of the data range. -/
def calculate_profile_threshold (criterion_name : String) (data_range : ℚ) :
    ℚ × ℚ :=
  if str_contains criterion_name "B-BBEE" then (2, 5)
  else if str_contains criterion_name "Network" ||
      str_contains criterion_name "Type" ||
      str_contains criterion_name "Sourcing" then
    (py_round_1 (max 1 (data_range * (8/100))),
     py_round_1 (max 3 (data_range * (25/100))))
  else if str_contains criterion_name "Investment" ||
      str_contains criterion_name "Equipment" then
    (py_round_1 (max (1/2) (data_range * (10/100))),
     py_round_1 (max 2 (data_range * (40/100))))
  else
    (py_round_1 (max (1/2) (data_range * (5/100))),
     py_round_1 (max 2 (data_range * (20/100))))

/-- `_calculate_survey_threshold`, reduced to the returned pair. -/
def calculate_survey_threshold (data_range : ℚ) : ℚ × ℚ :=
  if data_range ≤ 1 then (1/5, 1/2)
  else (py_round_1 (1/2), py_round_1 (min 2 (data_range * (25/100))))

/-- One criterion of `calculate_threshold_recommendations`: the
recommended (indifference, preference) pair for the observed scores.
`PROFILE_CRITERIA` in `database.py` is the same six-name set as in
`unified_api.py`. -/
def calculate_threshold_recommendation (criterion_name : String)
    (scores : List ℚ) : ℚ × ℚ :=
  if scores.length < 2 then (1/2, 2)
  else
    let min_score := list_min scores
    let max_score := list_max scores
    let data_range := max_score - min_score
    if PROFILE_CRITERIA.contains criterion_name then
      calculate_profile_threshold criterion_name data_range
    else calculate_survey_threshold data_range

lemma threshold_dispatch {scores : List ℚ} (h : 2 ≤ scores.length)
    (name : String) :
    calculate_threshold_recommendation name scores =
      if PROFILE_CRITERIA.contains name then
        calculate_profile_threshold name (list_max scores - list_min scores)
      else calculate_survey_threshold (list_max scores - list_min scores) := by
  simp only [calculate_threshold_recommendation]
  rw [if_neg (by omega)]

lemma list_min_two (a b : ℚ) : list_min [a, b] = min a b := by
  simp [list_min]

lemma list_max_two (a b : ℚ) : list_max [a, b] = max a b := by
  simp [list_max]

/-- C9, amended: with at least two observed scores the recommendation is
the subtype's (indifference, preference) pair, each range-derived
component rounded to one decimal (Python `round(·, 1)`): B-BBEE fixed
`(2, 5)`; categorical network/type/sourcing profile criteria
`(round(max(1, 8% range), 1), round(max(3, 25% range), 1))`; the binary
investment/equipment criterion
`(round(max(0.5, 10% range), 1), round(max(2, 40% range), 1))`; the
remaining profile criterion
`(round(max(0.5, 5% range), 1), round(max(2, 20% range), 1))`; survey
criteria with range ≤ 1 get `(0.2, 0.5)`; other survey criteria get
`(0.5, round(min(2, 25% range), 1))`. -/
theorem threshold_recommendation_by_subtype (scores : List ℚ)
    (h : 2 ≤ scores.length) :
    calculate_threshold_recommendation "B-BBEE Level" scores = (2, 5) ∧
    (∀ name, name ∈ ["Product/Service Type", "Geographical Network",
        "Method of Sourcing"] →
      calculate_threshold_recommendation name scores =
        (py_round_1 (max 1 ((list_max scores - list_min scores) * (8/100))),
         py_round_1 (max 3 ((list_max scores - list_min scores) * (25/100))))) ∧
    calculate_threshold_recommendation "Investment in Equipment" scores =
      (py_round_1 (max (1/2) ((list_max scores - list_min scores) * (10/100))),
       py_round_1 (max 2 ((list_max scores - list_min scores) * (40/100)))) ∧
    calculate_threshold_recommendation "Reciprocal Business" scores =
      (py_round_1 (max (1/2) ((list_max scores - list_min scores) * (5/100))),
       py_round_1 (max 2 ((list_max scores - list_min scores) * (20/100)))) ∧
    (∀ name, name ∉ PROFILE_CRITERIA →
      (list_max scores - list_min scores ≤ 1 →
        calculate_threshold_recommendation name scores = (1/5, 1/2)) ∧
      (1 < list_max scores - list_min scores →
        calculate_threshold_recommendation name scores =
          (py_round_1 (1/2),
           py_round_1 (min 2 ((list_max scores - list_min scores) * (25/100)))))) := by
  refine ⟨?_, ?_, ?_, ?_, ?_⟩
  · rw [threshold_dispatch h,
      if_pos (show PROFILE_CRITERIA.contains "B-BBEE Level" = true from rfl)]
    simp only [calculate_profile_threshold]
    rw [if_pos (show str_contains "B-BBEE Level" "B-BBEE" = true from rfl)]
  · intro name hname
    simp only [List.mem_cons, List.not_mem_nil, or_false] at hname
    rcases hname with rfl | rfl | rfl
    · rw [threshold_dispatch h,
        if_pos (show PROFILE_CRITERIA.contains "Product/Service Type" = true from rfl)]
      simp only [calculate_profile_threshold]
      rw [if_neg (show ¬str_contains "Product/Service Type" "B-BBEE" = true by decide),
        if_pos (by decide : (str_contains "Product/Service Type" "Network" ||
          str_contains "Product/Service Type" "Type" ||
          str_contains "Product/Service Type" "Sourcing") = true)]
    · rw [threshold_dispatch h,
        if_pos (show PROFILE_CRITERIA.contains "Geographical Network" = true from rfl)]
      simp only [calculate_profile_threshold]
      rw [if_neg (show ¬str_contains "Geographical Network" "B-BBEE" = true by decide),
        if_pos (by decide : (str_contains "Geographical Network" "Network" ||
          str_contains "Geographical Network" "Type" ||
          str_contains "Geographical Network" "Sourcing") = true)]
    · rw [threshold_dispatch h,
        if_pos (show PROFILE_CRITERIA.contains "Method of Sourcing" = true from rfl)]
      simp only [calculate_profile_threshold]
      rw [if_neg (show ¬str_contains "Method of Sourcing" "B-BBEE" = true by decide),
        if_pos (by decide : (str_contains "Method of Sourcing" "Network" ||
          str_contains "Method of Sourcing" "Type" ||
          str_contains "Method of Sourcing" "Sourcing") = true)]
  · rw [threshold_dispatch h,
      if_pos (show PROFILE_CRITERIA.contains "Investment in Equipment" = true from rfl)]
    simp only [calculate_profile_threshold]
    rw [if_neg (show ¬str_contains "Investment in Equipment" "B-BBEE" = true by decide),
      if_neg (by decide : ¬(str_contains "Investment in Equipment" "Network" ||
        str_contains "Investment in Equipment" "Type" ||
        str_contains "Investment in Equipment" "Sourcing") = true),
      if_pos (by decide : (str_contains "Investment in Equipment" "Investment" ||
        str_contains "Investment in Equipment" "Equipment") = true)]
  · rw [threshold_dispatch h,
      if_pos (show PROFILE_CRITERIA.contains "Reciprocal Business" = true from rfl)]
    simp only [calculate_profile_threshold]
    rw [if_neg (show ¬str_contains "Reciprocal Business" "B-BBEE" = true by decide),
      if_neg (by decide : ¬(str_contains "Reciprocal Business" "Network" ||
        str_contains "Reciprocal Business" "Type" ||
        str_contains "Reciprocal Business" "Sourcing") = true),
      if_neg (by decide : ¬(str_contains "Reciprocal Business" "Investment" ||
        str_contains "Reciprocal Business" "Equipment") = true)]
  · intro name hname
    have hcontains : PROFILE_CRITERIA.contains name = false :=
      Bool.eq_false_iff.mpr (fun hc => hname (List.elem_iff.mp hc))
    constructor
    · intro hr
      rw [threshold_dispatch h, hcontains]
      simp only [Bool.false_eq_true, if_false, calculate_survey_threshold]
      rw [if_pos hr]
    · intro hr
      rw [threshold_dispatch h, hcontains]
      simp only [Bool.false_eq_true, if_false, calculate_survey_threshold]
      rw [if_neg (not_le.mpr hr)]

/-- Witness for `threshold_recommendation_by_subtype` at the concrete
scores `[0, 14]` (range 14): the fixed B-BBEE pair, and the rounded
categorical pair, which evaluates to `(1.1, 3.5)`. -/
theorem threshold_recommendation_by_subtype_witness :
    calculate_threshold_recommendation "B-BBEE Level" [0, 14] = (2, 5) ∧
    calculate_threshold_recommendation "Geographical Network" [0, 14] =
      (py_round_1 (max 1 ((list_max [0, 14] - list_min [0, 14]) * (8/100))),
       py_round_1 (max 3 ((list_max [0, 14] - list_min [0, 14]) * (25/100)))) ∧
    calculate_threshold_recommendation "Geographical Network" [0, 14] =
      (11/10, 7/2) := by
  have h2 := (threshold_recommendation_by_subtype [0, 14] (by norm_num)).2.1
    "Geographical Network" (by simp)
  have hmax : list_max [0, 14] = 14 := by
    rw [list_max_two]; exact max_eq_right (by norm_num)
  have hmin : list_min [0, 14] = 0 := by
    rw [list_min_two]; exact min_eq_left (by norm_num)
  refine ⟨(threshold_recommendation_by_subtype [0, 14] (by norm_num)).1, h2, ?_⟩
  rw [h2, hmax, hmin]
  have hA : py_round_1 (max 1 ((14 - 0) * (8/100))) = 11/10 := by
    rw [max_eq_right (by norm_num)]
    norm_num [py_round_1, round_half_even]
  have hB : py_round_1 (max 3 ((14 - 0) * (25/100))) = 7/2 := by
    rw [max_eq_right (by norm_num)]
    norm_num [py_round_1, round_half_even]
  rw [hA, hB]

/-- C9, counterexample to the claim as stated: for the categorical profile
criterion "Geographical Network" with observed scores `{0, 14}` (range 14)
the code returns indifference `1.1` — `round(max(1.0, 0.08·14), 1) =
round(1.12, 1)` — while the claimed `max(1.0, 8% of range)` is `1.12`. -/
theorem threshold_recommendation_not_unrounded :
    (calculate_threshold_recommendation "Geographical Network" [0, 14]).1 = 11/10 ∧
    max (1:ℚ) ((list_max [0, 14] - list_min [0, 14]) * (8/100)) = 28/25 ∧
    (11/10 : ℚ) ≠ 28/25 := by
  have hmax : list_max [0, 14] = 14 := by
    rw [list_max_two]; exact max_eq_right (by norm_num)
  have hmin : list_min [0, 14] = 0 := by
    rw [list_min_two]; exact min_eq_left (by norm_num)
  have hM : max (1:ℚ) ((list_max [0, 14] - list_min [0, 14]) * (8/100)) = 28/25 := by
    rw [hmax, hmin, max_eq_right (by norm_num)]; norm_num
  refine ⟨?_, hM, by norm_num⟩
  rw [@threshold_dispatch [0, 14] (by norm_num) "Geographical Network",
    if_pos (show PROFILE_CRITERIA.contains "Geographical Network" = true from rfl)]
  simp only [calculate_profile_threshold]
  rw [if_neg (show ¬str_contains "Geographical Network" "B-BBEE" = true by decide),
    if_pos (by decide : (str_contains "Geographical Network" "Network" ||
      str_contains "Geographical Network" "Type" ||
      str_contains "Geographical Network" "Sourcing") = true)]
  show py_round_1 (max 1 ((list_max [0, 14] - list_min [0, 14]) * (8/100))) = 11/10
  rw [hM]
  norm_num [py_round_1, round_half_even]
